import Mathlib

/-
Verification development for the streaming tool-orchestration backend
(src/backend/mcp_agent.py, class WebMCPAgent).

The embedding models:
  - get_models_info (lines 165-202) and the profile-id resolution used by
    _get_or_create_llm_instances (lines 204-208);
  - chat_stream (lines 445-649): the round-based decision loop.

External effects are modelled as oracles:
  - the model backend is a script mapping the round number to the outcome of
    the streaming decision call (the streamed content pieces, the final
    content, and the tool-call requests, or an in-stream exception);
  - python json.loads is a parameter jsonLoads returning none when it raises;
  - each tool invocation outcome (success with the stringified result, or a
    raised exception with its message) is supplied per call position.
Since the only way the conversation transcript influences the emitted events
is through the model backend, a round-indexed script is fully general: any
transcript-dependent backend induces one.
-/

/-- Python values as far as chat_stream inspects them: a str, a dict
(association list, insertion ordered), or anything else together with its
str() form (constructor other). Mirrors the isinstance branches at
lines 566-574 of mcp_agent.py. -/
inductive PyVal where
  | str (s : String)
  | dict (fields : List (String × PyVal))
  | other (strForm : String)

/-- One tool-call request as extracted at lines 555-563: both the dict and
the object branch normalize to a call id (empty string when the id field is
missing or falsy), a tool name, and the raw arguments value. -/
structure ToolCall where
  id : String
  name : String
  rawArgs : PyVal

/-- Transcript message (the shared_history list): user / assistant (with the
tool_calls key modelled as a list, empty meaning the key is absent) /
tool-role / system message. -/
inductive Msg where
  | user (content : String)
  | assistant (content : String) (toolCalls : List ToolCall)
  | tool (tool_call_id : String) (name : String) (content : String)
  | system (content : String)

/-- Events yielded by chat_stream, one constructor per "type" tag. -/
inductive Event where
  | status (content : String)
  | tool_plan (content : String) (tool_count : Nat)
  | tool_start (tool_id : String) (tool_name : String) (tool_args : PyVal) (progress : String)
  | tool_end (tool_id : String) (tool_name : String) (result : String)
  | tool_error (tool_id : String) (error : String)
  | ai_response_start (content : String)
  | ai_response_chunk (content : String)
  | ai_response_end (content : String)
  | error (content : String)

/-- A prior conversation turn handed to chat_stream as history; ai_response
is the empty string when the record has no (or a falsy) ai_response field. -/
structure ConversationTurn where
  user_input : String
  ai_response : String

/-- Outcome of one tool invocation (target_tool.ainvoke at line 590):
success carries str(tool_result), failure carries str(e) of the raised
exception. -/
inductive ToolOutcome where
  | success (result : String)
  | failure (errText : String)

/-- Outcome of one streaming decision call (lines 494-532). ok carries the
content pieces streamed, the content_preview captured at on_chat_model_end,
and the tool_calls of the final output. err models an exception raised by
the stream after the given pieces were already streamed; the except branch
at lines 529-532 then leaves tool_calls_check = None and
content_preview = the empty string. -/
inductive DecideResult where
  | ok (chunks : List String) (finalContent : String) (toolCalls : List ToolCall)
  | err (chunksBeforeFailure : List String)

/-- Content pieces streamed by the decision call before it finished or
failed. -/
def DecideResult.chunks : DecideResult → List String
  | .ok cs _ _ => cs
  | .err cs => cs

/-- content_preview after the decision call: the captured output content on
success, the empty string when the stream raised (line 532). -/
def DecideResult.finalContent : DecideResult → String
  | .ok _ f _ => f
  | .err _ => ""

/-- tool_calls_check after the decision call: the requested calls on
success, none (modelled as the empty list) when the stream raised
(line 531). -/
def DecideResult.toolCalls : DecideResult → List ToolCall
  | .ok _ _ ts => ts
  | .err _ => []

/-- Scripted behaviour of the externals for one round: the decision-call
outcome and, for each 1-based call position, the invocation outcome of the
tool actually found at that position. -/
structure RoundScript where
  decide : DecideResult
  outcomes : Nat → ToolOutcome

/-- Argument parsing, lines 566-574: a string is json-parsed unless empty
(an empty string is falsy, giving the empty dict without parsing); a parse
failure wraps the raw text under the key $raw; a dict is used as-is; any
other value is wrapped under $raw via its str() form. -/
def parseToolArgs (jsonLoads : String → Option PyVal) : PyVal → PyVal
  | PyVal.str s =>
      if s = "" then PyVal.dict []
      else
        match jsonLoads s with
        | some v => v
        | none => PyVal.dict [("$raw", PyVal.str s)]
  | PyVal.dict m => PyVal.dict m
  | PyVal.other r => PyVal.dict [("$raw", PyVal.str r)]

/-- Effective call id, lines 556 and 561: the id field unless missing or
falsy, in which case call_i with the 1-based position i. -/
def effCallId (tc : ToolCall) (i : Nat) : String :=
  if tc.id = "" then "call_" ++ toString i else tc.id

/-- Error message for a missing tool, line 585. -/
def toolNotFoundMsg (name : String) : String :=
  "工具 \x27" ++ name ++ "\x27 未找到"

/-- Error message for a raised tool invocation, line 594. -/
def toolRaisedMsg (e : String) : String :=
  "工具执行出错: " ++ e

/-- Synthesized error-string result, lines 588 and 597. -/
def toolResultError (m : String) : String :=
  "错误: " ++ m

/-- The stringified tool result written into the tool-role transcript
message at lines 601-606: the invocation result when the tool is found and
succeeds, otherwise the synthesized error string. Lookup is by exact name
over the registered tool names (lines 579-583, first match). -/
def toolResultStr (tools : List String) (outcome : ToolOutcome) (tc : ToolCall) : String :=
  if tools.contains tc.name then
    match outcome with
    | .success r => r
    | .failure e => toolResultError (toolRaisedMsg e)
  else toolResultError (toolNotFoundMsg tc.name)

/-- Execution of a single tool call, lines 565-606: emits tool_start, then
tool_end on success or tool_error on lookup failure or a raised invocation,
and unconditionally produces the tool-role transcript message. i is the
1-based position, n the number of calls in the round (for the progress
field). -/
def execOneCall (tools : List String) (jsonLoads : String → Option PyVal)
    (outcome : ToolOutcome) (i n : Nat) (tc : ToolCall) : List Event × Msg :=
  let tid := effCallId tc i
  let args := parseToolArgs jsonLoads tc.rawArgs
  let evs :=
    Event.tool_start tid tc.name args (toString i ++ "/" ++ toString n) ::
      (if tools.contains tc.name then
        match outcome with
        | .success r => [Event.tool_end tid tc.name r]
        | .failure e => [Event.tool_error tid (toolRaisedMsg e)]
      else [Event.tool_error tid (toolNotFoundMsg tc.name)])
  (evs, Msg.tool tid tc.name (toolResultStr tools outcome tc))

/-- Sequential execution of the calls of one round (the for loop at
line 554), starting at 1-based position i, collecting the emitted events and
the appended tool-role messages in request order. The exit_to_stream flag of
the source is never set (line 592 comment: the exit-tool mode was removed),
so the loop always runs over every call. -/
def execCalls (tools : List String) (jsonLoads : String → Option PyVal)
    (outcomes : Nat → ToolOutcome) (n : Nat) : Nat → List ToolCall → List Event × List Msg
  | _, [] => ([], [])
  | i, tc :: rest =>
      let one := execOneCall tools jsonLoads (outcomes i) i n tc
      let restRes := execCalls tools jsonLoads outcomes n (i + 1) rest
      (one.1 ++ restRes.1, one.2 :: restRes.2)

/-- Events of the tool-execution phase of a round. -/
def roundToolEvents (tools : List String) (jsonLoads : String → Option PyVal)
    (rs : RoundScript) : List Event :=
  (execCalls tools jsonLoads rs.outcomes rs.decide.toolCalls.length 1 rs.decide.toolCalls).1

/-- Tool-role transcript messages appended by the tool-execution phase of a
round, in request order. -/
def roundToolMsgs (tools : List String) (jsonLoads : String → Option PyVal)
    (rs : RoundScript) : List Msg :=
  (execCalls tools jsonLoads rs.outcomes rs.decide.toolCalls.length 1 rs.decide.toolCalls).2

/-- Content of the ai_response_start event, lines 509, 626 and 640. -/
def startContentText : String := "AI正在回复..."

/-- The fallback answer streamed when the round limit is exhausted,
line 639. -/
def fallbackAnswerText : String :=
  "已达到最大推理轮数，请缩小问题范围或稍后重试。"

/-- Events emitted while forwarding the decision-call content pieces
(lines 507-517): falsy pieces are skipped; the first forwarded piece also
emits ai_response_start when the combined answer has not started yet. -/
def streamEvents : Bool → List String → List Event
  | _, [] => []
  | started, c :: rest =>
      if c = "" then streamEvents started rest
      else if started then Event.ai_response_chunk c :: streamEvents true rest
      else Event.ai_response_start startContentText ::
        Event.ai_response_chunk c :: streamEvents true rest

/-- Closing events of the no-tool branch, lines 618-635: when the combined
answer already started only ai_response_end is emitted; otherwise start,
the final text (when truthy) and end. -/
def closingEvents (started2 : Bool) (finalText : String) : List Event :=
  if started2 then [Event.ai_response_end ""]
  else
    Event.ai_response_start startContentText ::
      ((if finalText = "" then [] else [Event.ai_response_chunk finalText]) ++
        [Event.ai_response_end ""])

/-- Events of the round-limit fallback, lines 637-643. Note the source
emits ai_response_start here unconditionally, without consulting
combined_response_started. -/
def fallbackEvents : List Event :=
  [Event.ai_response_start startContentText,
   Event.ai_response_chunk fallbackAnswerText,
   Event.ai_response_end fallbackAnswerText]

/-- Hard round limit, line 480. -/
def maxRounds : Nat := 25

/-- The while loop of chat_stream (lines 484-643), producing the emitted
events from the current round on. The first argument of the recursion is the
remaining fuel (max_rounds minus the rounds already run), then the 0-based
index of the current round in the script, then combined_response_started.
The conversation transcript does not influence the events once the backend
is scripted, so it is tracked separately by transcriptAt below. -/
def runRounds (tools : List String) (jsonLoads : String → Option PyVal)
    (script : Nat → RoundScript) : Nat → Nat → Bool → List Event
  | 0, _, _ => fallbackEvents
  | fuel + 1, r, started =>
      let rs := script r
      let pieces := rs.decide.chunks.filter (fun c => c ≠ "")
      let started2 := started || !pieces.isEmpty
      if rs.decide.toolCalls.isEmpty then
        streamEvents started rs.decide.chunks ++
          closingEvents started2
            (if pieces.isEmpty then rs.decide.finalContent else String.join pieces)
      else
        streamEvents started rs.decide.chunks ++
          (if !pieces.isEmpty then [Event.ai_response_chunk "\n\n"] else []) ++
          (Event.tool_plan
              ("AI决定调用 " ++ toString rs.decide.toolCalls.length ++ " 个工具")
              rs.decide.toolCalls.length ::
            roundToolEvents tools jsonLoads rs) ++
          runRounds tools jsonLoads script fuel (r + 1) started2

/-- Number of decision calls issued to the model backend by runRounds: one
per executed round. -/
def decisionRounds (script : Nat → RoundScript) : Nat → Nat → Nat
  | 0, _ => 0
  | fuel + 1, r =>
      if (script r).decide.toolCalls.isEmpty then 1
      else 1 + decisionRounds script fuel (r + 1)

/-- Initial shared_history built at lines 472-478: per prior turn a user
message and, when ai_response is truthy, an assistant message; then the new
user message. -/
def buildSharedHistory (history : List ConversationTurn) (userInput : String) : List Msg :=
  (history.map (fun t =>
      Msg.user t.user_input ::
        (if t.ai_response = "" then [] else [Msg.assistant t.ai_response []]))).flatten ++
    [Msg.user userInput]

/-- The full event sequence of one chat_stream invocation that does not hit
the outer except clause (line 644): the initial status event (line 458)
followed by the rounds. All modelled failure sources (decision-stream
exceptions, tool exceptions) are caught inside the loop, so this covers
every run driven by the modelled externals. -/
def chat_stream (tools : List String) (jsonLoads : String → Option PyVal)
    (script : Nat → RoundScript) (userInput : String)
    (history : List ConversationTurn) : List Event :=
  Event.status "开始生成..." ::
    runRounds tools jsonLoads script maxRounds 0 false

/-- Transcript update of one round, lines 543-606: when the decision call
requested tools, the assistant message carrying them (content empty,
line 544) and then one tool-role message per call are appended; otherwise
the loop returns and the transcript is final. -/
def roundStepHistory (tools : List String) (jsonLoads : String → Option PyVal)
    (rs : RoundScript) (hist : List Msg) : List Msg :=
  if rs.decide.toolCalls.isEmpty then hist
  else hist ++ Msg.assistant "" rs.decide.toolCalls :: roundToolMsgs tools jsonLoads rs

/-- shared_history at the start of round n (0-based), given the transcript
hist0 built before the loop. -/
def transcriptAt (tools : List String) (jsonLoads : String → Option PyVal)
    (script : Nat → RoundScript) (hist0 : List Msg) : Nat → List Msg
  | 0 => hist0
  | n + 1 =>
      roundStepHistory tools jsonLoads (script n)
        (transcriptAt tools jsonLoads script hist0 n)

/-- The message list passed into the decision call of round n, line 489:
the tool-dispatcher system message prepended to shared_history. -/
def decisionInput (tools : List String) (jsonLoads : String → Option PyVal)
    (script : Nat → RoundScript) (sysPrompt : String) (hist0 : List Msg)
    (n : Nat) : List Msg :=
  Msg.system sysPrompt :: transcriptAt tools jsonLoads script hist0 n

/-- True exactly on ai_response_start events. -/
def isStartEv : Event → Bool
  | .ai_response_start _ => true
  | _ => false

/-- True exactly on ai_response_end events. -/
def isEndEv : Event → Bool
  | .ai_response_end _ => true
  | _ => false

/-- True exactly on error events. -/
def isErrorEvent : Event → Bool
  | .error _ => true
  | _ => false

/-- One model profile as stored in llm_profiles (lines 123-161); only the
fields read by get_models_info are kept. -/
structure ProfileCfg where
  id : String
  label : String
  base_url : String
  model : String
deriving DecidableEq

/-- One entry of the models listing returned by get_models_info. -/
structure ModelEntry where
  id : String
  label : String
  model : String
  is_default : Bool
deriving DecidableEq

/-- Return value of get_models_info; defaultId is the field named default
in the source dict. -/
structure ModelsInfo where
  models : List ModelEntry
  defaultId : String
deriving DecidableEq

/-- Profile lookup by id (python dict access profiles.get(pid, {})); when
absent the fallback has empty strings and label pid, matching the
cfg.get defaults at lines 190-197. -/
def cfgFor (profiles : List ProfileCfg) (pid : String) : ProfileCfg :=
  match profiles.find? (fun c => c.id = pid) with
  | some c => c
  | none => { id := pid, label := pid, base_url := "", model := "" }

/-- Effective default profile id, lines 173-178. -/
def effectiveDefault (profiles : List ProfileCfg) (defaultProfileId : String) : String :=
  let ids := profiles.map ProfileCfg.id
  let nonDefault := ids.filter (fun i => i ≠ "default")
  if defaultProfileId ≠ "" ∧ defaultProfileId ≠ "default" ∧ ids.contains defaultProfileId then
    defaultProfileId
  else
    match nonDefault with
    | x :: _ => x
    | [] => "default"

/-- The display dedup loop of get_models_info, lines 186-199: iterate the
ids to show, skip an id whose (base_url.strip, model.strip) signature was
already seen, otherwise record the signature and emit the entry. -/
def dedupModels (profiles : List ProfileCfg) (effDefault : String) :
    List String → List (String × String) → List ModelEntry
  | [], _ => []
  | pid :: rest, seen =>
      let cfg := cfgFor profiles pid
      let signature := (cfg.base_url.trim, cfg.model.trim)
      if seen.contains signature then dedupModels profiles effDefault rest seen
      else
        { id := pid, label := cfg.label, model := cfg.model,
          is_default := pid = effDefault } ::
          dedupModels profiles effDefault rest (signature :: seen)

/-- get_models_info, lines 165-202: the listing hides the default profile
whenever any non-default profile exists, shows it when it is the only one,
and deduplicates by (base_url, model) signature, first seen wins. -/
def get_models_info (profiles : List ProfileCfg) (defaultProfileId : String) : ModelsInfo :=
  let ids := profiles.map ProfileCfg.id
  let nonDefault := ids.filter (fun i => i ≠ "default")
  let effDefault := effectiveDefault profiles defaultProfileId
  let showIds :=
    if nonDefault = [] then (if ids.contains "default" then ["default"] else [])
    else nonDefault
  { models := dedupModels profiles effDefault showIds [], defaultId := effDefault }

/-- Profile-id resolution of _get_or_create_llm_instances, lines 204-208:
a missing or falsy requested id falls back to the default profile id, and an
id not present in the profiles also falls back to the default profile id. -/
def resolve_profile_id (profileIds : List String) (defaultProfileId : String)
    (requested : Option String) : String :=
  let pid :=
    match requested with
    | some s => if s = "" then defaultProfileId else s
    | none => defaultProfileId
  if profileIds.contains pid then pid else defaultProfileId

/-
Concrete fixtures used by the closed witness and counterexample theorems.
-/

/-- A json.loads oracle that always raises. -/
def wLoads : String → Option PyVal := fun _ => none

/-- A registry holding one tool named search. -/
def wTools : List String := ["search"]

/-- A request for the registered tool with structured arguments. -/
def wCall : ToolCall := { id := "c1", name := "search", rawArgs := PyVal.dict [] }

/-- A backend script that requests one successful tool call every round. -/
def wScript : Nat → RoundScript := fun _ =>
  { decide := DecideResult.ok [] "" [wCall], outcomes := fun _ => ToolOutcome.success "42" }

/-- A backend script that requests one tool call whose invocation raises. -/
def wFailScript : Nat → RoundScript := fun _ =>
  { decide := DecideResult.ok [] "" [wCall], outcomes := fun _ => ToolOutcome.failure "boom" }

/-- A backend script requesting a tool that is not registered. -/
def wMissScript : Nat → RoundScript := fun _ =>
  { decide := DecideResult.ok [] ""
      [{ id := "", name := "nope", rawArgs := PyVal.str "x" }],
    outcomes := fun _ => ToolOutcome.success "" }

/-- A backend whose decision stream fails on every round before streaming
anything. -/
def wErrScript : Nat → RoundScript := fun _ =>
  { decide := DecideResult.err [], outcomes := fun _ => ToolOutcome.success "" }

/-- A backend that streams one content piece and then requests one
successful tool call, every round: drives the run into the round-limit
fallback with combined_response_started already true. -/
def c2Script : Nat → RoundScript := fun _ =>
  { decide := DecideResult.ok ["好"] "" [wCall], outcomes := fun _ => ToolOutcome.success "42" }

/-- Round 0 succeeds with a tool call, the decision stream of round 1
raises: a backend failure after one successful round. -/
def c5Script : Nat → RoundScript := fun r =>
  if r = 0 then
    { decide := DecideResult.ok [] "" [wCall], outcomes := fun _ => ToolOutcome.success "ok" }
  else { decide := DecideResult.err [], outcomes := fun _ => ToolOutcome.success "" }

/-- Profiles with the legacy default entry plus two non-default entries. -/
def wProfiles : List ProfileCfg :=
  [{ id := "default", label := "Default", base_url := "", model := "m0" },
   { id := "a", label := "A", base_url := "u1", model := "m1" },
   { id := "b", label := "B", base_url := "u2", model := "m2" }]

/-
Helper lemmas shared by the claim theorems.
-/

theorem execCalls_snd_length (tools : List String) (jsonLoads : String → Option PyVal)
    (o : Nat → ToolOutcome) (n : Nat) :
    ∀ (cs : List ToolCall) (i : Nat),
      ((execCalls tools jsonLoads o n i cs).2).length = cs.length := by
  intro cs
  induction cs with
  | nil => intro i; simp [execCalls]
  | cons hd tl ih => intro i; simp [execCalls, ih]

theorem execCalls_snd_getElem (tools : List String) (jsonLoads : String → Option PyVal)
    (o : Nat → ToolOutcome) (n : Nat) :
    ∀ (cs : List ToolCall) (i k : Nat) (tc : ToolCall), cs[k]? = some tc →
      ((execCalls tools jsonLoads o n i cs).2)[k]? =
        some (Msg.tool (effCallId tc (i + k)) tc.name (toolResultStr tools (o (i + k)) tc)) := by
  intro cs
  induction cs with
  | nil => intro i k tc h; simp at h
  | cons hd tl ih =>
    intro i k tc h
    cases k with
    | zero =>
      simp at h
      subst h
      simp [execCalls, execOneCall]
    | succ k =>
      simp at h
      have := ih (i + 1) k tc h
      have heq : i + (k + 1) = (i + 1) + k := by omega
      rw [heq]
      simpa [execCalls] using this

theorem execCalls_fst_mem (tools : List String) (jsonLoads : String → Option PyVal)
    (o : Nat → ToolOutcome) (n : Nat) :
    ∀ (cs : List ToolCall) (i k : Nat) (tc : ToolCall), cs[k]? = some tc →
      ∀ e ∈ (execOneCall tools jsonLoads (o (i + k)) (i + k) n tc).1,
        e ∈ (execCalls tools jsonLoads o n i cs).1 := by
  intro cs
  induction cs with
  | nil => intro i k tc h; simp at h
  | cons hd tl ih =>
    intro i k tc h e he
    cases k with
    | zero =>
      simp at h
      subst h
      simp only [execCalls]
      exact List.mem_append_left _ (by simpa using he)
    | succ k =>
      simp at h
      have heq : (i + 1) + k = i + (k + 1) := by omega
      have := ih (i + 1) k tc h e (by rw [heq]; exact he)
      simp only [execCalls]
      exact List.mem_append_right _ this

theorem streamEvents_no_error :
    ∀ (b : Bool) (cs : List String), ∀ e ∈ streamEvents b cs, isErrorEvent e = false := by
  intro b cs
  induction cs generalizing b with
  | nil => intro e he; simp [streamEvents] at he
  | cons c rest ih =>
    intro e he
    by_cases hc : c = ""
    · exact ih b e (by simpa [streamEvents, hc] using he)
    · cases b with
      | true =>
        simp only [streamEvents, if_neg hc, if_pos rfl] at he
        rcases List.mem_cons.mp he with h | h
        · subst h; rfl
        · exact ih true e h
      | false =>
        simp only [streamEvents, if_neg hc] at he
        rcases List.mem_cons.mp he with h | h
        · subst h; rfl
        · rcases List.mem_cons.mp h with h2 | h2
          · subst h2; rfl
          · exact ih true e h2

theorem closingEvents_no_error (b : Bool) (t : String) :
    ∀ e ∈ closingEvents b t, isErrorEvent e = false := by
  intro e he
  cases e <;> try rfl
  exfalso
  cases b <;> by_cases ht : t = "" <;> simp [closingEvents, ht] at he

theorem closingEvents_last (b : Bool) (t : String) :
    (closingEvents b t).getLast? = some (Event.ai_response_end "") := by
  cases b <;> by_cases ht : t = "" <;> simp [closingEvents, ht, List.getLast?]

theorem runRounds_last (tools : List String) (jsonLoads : String → Option PyVal)
    (script : Nat → RoundScript) :
    ∀ (fuel r : Nat) (started : Bool), ∃ c,
      (runRounds tools jsonLoads script fuel r started).getLast? =
        some (Event.ai_response_end c) := by
  intro fuel
  induction fuel with
  | zero =>
    intro r started
    exact ⟨fallbackAnswerText, rfl⟩
  | succ f ih =>
    intro r started
    by_cases hc : ((script r).decide.toolCalls).isEmpty
    · refine ⟨"", ?_⟩
      simp only [runRounds, hc, if_true]
      rw [List.getLast?_append_of_ne_nil _ (by simp [closingEvents]; split <;> simp)]
      exact closingEvents_last _ _
    · obtain ⟨c, hlast⟩ := ih (r + 1) (started || !((script r).decide.chunks.filter (fun c => c ≠ "")).isEmpty)
      refine ⟨c, ?_⟩
      simp only [runRounds]
      rw [if_neg hc]
      rw [List.getLast?_append_of_ne_nil _ (fun hnil => by rw [hnil] at hlast; simp at hlast)]
      exact hlast

theorem runRounds_exhaust (tools : List String) (jsonLoads : String → Option PyVal)
    (script : Nat → RoundScript) :
    ∀ (fuel r : Nat) (started : Bool),
      (∀ m, r ≤ m → m < r + fuel → ((script m).decide.toolCalls).isEmpty = false) →
      ∃ p, runRounds tools jsonLoads script fuel r started = p ++ fallbackEvents := by
  intro fuel
  induction fuel with
  | zero =>
    intro r started _
    exact ⟨[], by simp [runRounds]⟩
  | succ f ih =>
    intro r started h
    have hr : ((script r).decide.toolCalls).isEmpty = false := h r (by omega) (by omega)
    obtain ⟨p, hp⟩ := ih (r + 1) (started || !((script r).decide.chunks.filter (fun c => c ≠ "")).isEmpty)
      (fun m h1 h2 => h m (by omega) (by omega))
    refine ⟨streamEvents started (script r).decide.chunks ++
        (if !((script r).decide.chunks.filter (fun c => c ≠ "")).isEmpty then
          [Event.ai_response_chunk "\n\n"] else []) ++
        (Event.tool_plan
            ("AI决定调用 " ++ toString (script r).decide.toolCalls.length ++ " 个工具")
            (script r).decide.toolCalls.length ::
          roundToolEvents tools jsonLoads (script r)) ++ p, ?_⟩
    simp only [runRounds]
    rw [if_neg (by simp [hr]), hp]
    simp [List.append_assoc]

theorem decisionRounds_exhaust (script : Nat → RoundScript) :
    ∀ (fuel r : Nat),
      (∀ m, r ≤ m → m < r + fuel → ((script m).decide.toolCalls).isEmpty = false) →
      decisionRounds script fuel r = fuel := by
  intro fuel
  induction fuel with
  | zero => intro r _; rfl
  | succ f ih =>
    intro r h
    have hr : ((script r).decide.toolCalls).isEmpty = false := h r (by omega) (by omega)
    have := ih (r + 1) (fun m h1 h2 => h m (by omega) (by omega))
    simp only [decisionRounds, hr, Bool.false_eq_true, if_false, this]
    omega

theorem dedupModels_ids_subset (profiles : List ProfileCfg) (effDefault : String) :
    ∀ (pids : List String) (seen : List (String × String)) (x : String),
      x ∈ (dedupModels profiles effDefault pids seen).map ModelEntry.id → x ∈ pids := by
  intro pids
  induction pids with
  | nil => intro seen x hx; simp [dedupModels] at hx
  | cons pid rest ih =>
    intro seen x hx
    by_cases hs : seen.contains ((cfgFor profiles pid).base_url.trim, (cfgFor profiles pid).model.trim)
    all_goals simp only [dedupModels] at hx
    · rw [if_pos (by simpa using hs)] at hx
      exact List.mem_cons_of_mem _ (ih seen x hx)
    · rw [if_neg (by simpa using hs)] at hx
      simp only [List.map_cons, List.mem_cons] at hx
      rcases hx with h | h
      · exact h ▸ List.mem_cons_self _ _
      · exact List.mem_cons_of_mem _ (ih _ x h)

theorem chatStreamEndsWithEnd (tools : List String) (jsonLoads : String → Option PyVal)
    (script : Nat → RoundScript) (ui : String) (hist : List ConversationTurn) :
    ∃ c, (chat_stream tools jsonLoads script ui hist).getLast? =
      some (Event.ai_response_end c) := by
  obtain ⟨c, hc⟩ := runRounds_last tools jsonLoads script maxRounds 0 false
  refine ⟨c, ?_⟩
  show ([Event.status "开始生成..."] ++
    runRounds tools jsonLoads script maxRounds 0 false).getLast? = _
  rw [List.getLast?_append_of_ne_nil _ (fun hnil => by rw [hnil] at hc; simp at hc)]
  exact hc

/-
Claim theorems.
-/

/-- Claim C1: in every round whose decision call returns tool-call
requests, the transcript passed into the next decision call equals the
transcript of the current round with exactly one assistant message carrying
the requests appended, followed by exactly one tool-role message per
requested call, in request order (the message at position k belongs to the
call at position k and is present whatever the invocation outcome was). -/
theorem c1_transcript_invariant (tools : List String) (jsonLoads : String → Option PyVal)
    (script : Nat → RoundScript) (sysPrompt : String) (hist0 : List Msg) (n : Nat)
    (h : ((script n).decide.toolCalls).isEmpty = false) :
    decisionInput tools jsonLoads script sysPrompt hist0 (n + 1)
      = decisionInput tools jsonLoads script sysPrompt hist0 n
        ++ Msg.assistant "" ((script n).decide.toolCalls)
        :: roundToolMsgs tools jsonLoads (script n)
    ∧ (roundToolMsgs tools jsonLoads (script n)).length
        = ((script n).decide.toolCalls).length
    ∧ ∀ (k : Nat) (tc : ToolCall), ((script n).decide.toolCalls)[k]? = some tc →
        (roundToolMsgs tools jsonLoads (script n))[k]?
          = some (Msg.tool (effCallId tc (1 + k)) tc.name
              (toolResultStr tools ((script n).outcomes (1 + k)) tc)) := by
  refine ⟨?_, execCalls_snd_length _ _ _ _ _ _, ?_⟩
  · simp only [decisionInput, transcriptAt, roundStepHistory]
    rw [if_neg (by simp [h])]
    simp [List.cons_append]
  · intro k tc hk
    exact execCalls_snd_getElem tools jsonLoads (script n).outcomes _ _ 1 k tc hk

theorem c1_transcript_invariant_witness :
    ((wScript 0).decide.toolCalls).isEmpty = false
    ∧ (decisionInput wTools wLoads wScript "sys" [] 1
        = decisionInput wTools wLoads wScript "sys" [] 0
          ++ Msg.assistant "" ((wScript 0).decide.toolCalls)
          :: roundToolMsgs wTools wLoads (wScript 0)
      ∧ (roundToolMsgs wTools wLoads (wScript 0)).length
          = ((wScript 0).decide.toolCalls).length
      ∧ ∀ (k : Nat) (tc : ToolCall), ((wScript 0).decide.toolCalls)[k]? = some tc →
          (roundToolMsgs wTools wLoads (wScript 0))[k]?
            = some (Msg.tool (effCallId tc (1 + k)) tc.name
                (toolResultStr wTools ((wScript 0).outcomes (1 + k)) tc))) :=
  ⟨rfl, c1_transcript_invariant wTools wLoads wScript "sys" [] 0 rfl⟩

/-- Claim C2 (code evaluated at the failing input): when content was
streamed during an earlier tool round and the round limit is then
exhausted, the fallback path at line 640 emits a second ai_response_start,
so the run contains two ai_response_start events (and one
ai_response_end), contradicting the claim and the combined-message comment
at lines 482 and 507 of the source. -/
theorem c2_duplicate_start_at_round_limit :
    (chat_stream wTools wLoads c2Script "hi" []).countP isStartEv = 2
    ∧ (chat_stream wTools wLoads c2Script "hi" []).countP isEndEv = 1 :=
  ⟨by rfl, by rfl⟩

/-- Claim C3: when the backend requests at least one tool call in every
round up to the round limit, exactly maxRounds decision calls are issued
(no further one) and the emitted sequence ends with the fallback events
streaming the budget-exhausted message (fallbackAnswerText) and closing
the turn. -/
theorem c3_round_limit_fallback (tools : List String) (jsonLoads : String → Option PyVal)
    (script : Nat → RoundScript) (ui : String) (hist : List ConversationTurn)
    (h : ∀ m, m < maxRounds → ((script m).decide.toolCalls).isEmpty = false) :
    decisionRounds script maxRounds 0 = maxRounds
    ∧ ∃ p, chat_stream tools jsonLoads script ui hist = p ++ fallbackEvents := by
  constructor
  · exact decisionRounds_exhaust script maxRounds 0 (fun m h1 h2 => h m (by omega))
  · obtain ⟨p, hp⟩ :=
      runRounds_exhaust tools jsonLoads script maxRounds 0 false (fun m h1 h2 => h m (by omega))
    refine ⟨Event.status "开始生成..." :: p, ?_⟩
    simp only [chat_stream]
    rw [hp]
    rfl

theorem c3_round_limit_fallback_witness :
    (∀ m, m < maxRounds → ((wScript m).decide.toolCalls).isEmpty = false)
    ∧ (decisionRounds wScript maxRounds 0 = maxRounds
      ∧ ∃ p, chat_stream wTools wLoads wScript "hi" [] = p ++ fallbackEvents) :=
  ⟨fun _ _ => rfl, c3_round_limit_fallback wTools wLoads wScript "hi" [] (fun _ _ => rfl)⟩

/-- Claim C4: when the invocation of a found tool at position k of a round
raises with message e, a tool_error event carrying toolRaisedMsg e is
emitted, and the tool-role transcript message at position k is still
present, carrying the call id, the tool name and the synthesized error
string; the other calls of the round are unaffected (one transcript
message per requested call). -/
theorem c4_tool_failure_isolation (tools : List String) (jsonLoads : String → Option PyVal)
    (rs : RoundScript) (k : Nat) (tc : ToolCall) (e : String)
    (hc : (rs.decide.toolCalls)[k]? = some tc)
    (hf : tools.contains tc.name = true)
    (ho : rs.outcomes (1 + k) = ToolOutcome.failure e) :
    Event.tool_error (effCallId tc (1 + k)) (toolRaisedMsg e)
        ∈ roundToolEvents tools jsonLoads rs
    ∧ (roundToolMsgs tools jsonLoads rs)[k]?
        = some (Msg.tool (effCallId tc (1 + k)) tc.name
            (toolResultError (toolRaisedMsg e)))
    ∧ (roundToolMsgs tools jsonLoads rs).length = (rs.decide.toolCalls).length := by
  have hf2 : tc.name ∈ tools := by simpa using hf
  refine ⟨?_, ?_, execCalls_snd_length _ _ _ _ _ _⟩
  · apply execCalls_fst_mem tools jsonLoads rs.outcomes _ _ 1 k tc hc
    rw [ho]
    simp [execOneCall, hf2]
  · have := execCalls_snd_getElem tools jsonLoads rs.outcomes
      rs.decide.toolCalls.length rs.decide.toolCalls 1 k tc hc
    rw [roundToolMsgs, this, ho]
    simp [toolResultStr, hf2]

theorem c4_tool_failure_isolation_witness :
    ((wFailScript 0).decide.toolCalls)[0]? = some wCall
    ∧ wTools.contains wCall.name = true
    ∧ (wFailScript 0).outcomes (1 + 0) = ToolOutcome.failure "boom"
    ∧ (Event.tool_error (effCallId wCall (1 + 0)) (toolRaisedMsg "boom")
          ∈ roundToolEvents wTools wLoads (wFailScript 0)
      ∧ (roundToolMsgs wTools wLoads (wFailScript 0))[0]?
          = some (Msg.tool (effCallId wCall (1 + 0)) wCall.name
              (toolResultError (toolRaisedMsg "boom")))
      ∧ (roundToolMsgs wTools wLoads (wFailScript 0)).length
          = ((wFailScript 0).decide.toolCalls).length) :=
  ⟨rfl, rfl, rfl,
    c4_tool_failure_isolation wTools wLoads (wFailScript 0) 0 wCall "boom" rfl rfl rfl⟩

/-- Claim C5 counterexample: with c5Script, round 0 succeeds and requests a
tool call and the backend invocation of round 1 fails, yet the emitted
sequence contains no error event at all and the turn ends normally with
ai_response_end — refuting the claimed behaviour that a failure after at
least one successful round surfaces as an error event. -/
theorem c5_counterexample_no_error_event :
    ((c5Script 0).decide.toolCalls).length = 1
    ∧ (c5Script 1).decide = DecideResult.err []
    ∧ (chat_stream wTools wLoads c5Script "hi" []).countP isErrorEvent = 0
    ∧ (chat_stream wTools wLoads c5Script "hi" []).getLast?
        = some (Event.ai_response_end "") :=
  ⟨rfl, rfl, by rfl, by rfl⟩

/-- Claim C5 as amended: when the decision call of any round r fails
in-stream (first round or later alike), chat_stream degrades to treating
the turn as tool-free: the remaining events are free of error events and
the turn ends with ai_response_end, closing whatever content was already
streamed. -/
theorem c5_backend_failure_degrades (tools : List String) (jsonLoads : String → Option PyVal)
    (script : Nat → RoundScript) (fuel r : Nat) (started : Bool) (cs : List String)
    (h : (script r).decide = DecideResult.err cs) :
    (∀ e ∈ runRounds tools jsonLoads script (fuel + 1) r started, isErrorEvent e = false)
    ∧ (runRounds tools jsonLoads script (fuel + 1) r started).getLast?
        = some (Event.ai_response_end "") := by
  have hempty : ((script r).decide.toolCalls).isEmpty = true := by
    rw [h]; rfl
  constructor
  · intro e he
    simp only [runRounds] at he
    rw [if_pos hempty] at he
    rcases List.mem_append.mp he with hm | hm
    · exact streamEvents_no_error _ _ e hm
    · exact closingEvents_no_error _ _ e hm
  · simp only [runRounds]
    rw [if_pos hempty]
    rw [List.getLast?_append_of_ne_nil _ (by simp only [closingEvents]; split <;> simp)]
    exact closingEvents_last _ _

theorem c5_backend_failure_degrades_witness :
    (wErrScript 1).decide = DecideResult.err []
    ∧ ((∀ e ∈ runRounds wTools wLoads wErrScript (0 + 1) 1 true, isErrorEvent e = false)
      ∧ (runRounds wTools wLoads wErrScript (0 + 1) 1 true).getLast?
          = some (Event.ai_response_end "")) :=
  ⟨rfl, c5_backend_failure_degrades wTools wLoads wErrScript 0 1 true [] rfl⟩

/-- Claim C6: when the tool name of the request at position k of a round
has no exact match in the registered tool set, a tool_error event with the
not-found message is emitted, the synthesized error string is appended as
that call tool-role transcript message (the round keeps one message per
call, so it is not aborted), and the full run still ends with a final
answer closed by ai_response_end. -/
theorem c6_tool_not_found (tools : List String) (jsonLoads : String → Option PyVal)
    (script : Nat → RoundScript) (ui : String) (hist : List ConversationTurn)
    (n k : Nat) (tc : ToolCall)
    (hc : ((script n).decide.toolCalls)[k]? = some tc)
    (hnf : tools.contains tc.name = false) :
    Event.tool_error (effCallId tc (1 + k)) (toolNotFoundMsg tc.name)
        ∈ roundToolEvents tools jsonLoads (script n)
    ∧ (roundToolMsgs tools jsonLoads (script n))[k]?
        = some (Msg.tool (effCallId tc (1 + k)) tc.name
            (toolResultError (toolNotFoundMsg tc.name)))
    ∧ (roundToolMsgs tools jsonLoads (script n)).length
        = ((script n).decide.toolCalls).length
    ∧ ∃ c, (chat_stream tools jsonLoads script ui hist).getLast?
        = some (Event.ai_response_end c) := by
  have hnf2 : tc.name ∉ tools := by simpa using hnf
  refine ⟨?_, ?_, execCalls_snd_length _ _ _ _ _ _,
    chatStreamEndsWithEnd tools jsonLoads script ui hist⟩
  · apply execCalls_fst_mem tools jsonLoads (script n).outcomes _ _ 1 k tc hc
    simp [execOneCall, hnf2]
  · have := execCalls_snd_getElem tools jsonLoads (script n).outcomes
      ((script n).decide.toolCalls).length ((script n).decide.toolCalls) 1 k tc hc
    rw [roundToolMsgs, this]
    simp [toolResultStr, hnf2]

theorem c6_tool_not_found_witness :
    ((wMissScript 0).decide.toolCalls)[0]?
        = some { id := "", name := "nope", rawArgs := PyVal.str "x" }
    ∧ wTools.contains "nope" = false
    ∧ (Event.tool_error (effCallId { id := "", name := "nope", rawArgs := PyVal.str "x" } (1 + 0))
          (toolNotFoundMsg "nope")
        ∈ roundToolEvents wTools wLoads (wMissScript 0)
      ∧ (roundToolMsgs wTools wLoads (wMissScript 0))[0]?
          = some (Msg.tool
              (effCallId { id := "", name := "nope", rawArgs := PyVal.str "x" } (1 + 0))
              "nope" (toolResultError (toolNotFoundMsg "nope")))
      ∧ (roundToolMsgs wTools wLoads (wMissScript 0)).length
          = ((wMissScript 0).decide.toolCalls).length
      ∧ ∃ c, (chat_stream wTools wLoads wMissScript "hi" []).getLast?
          = some (Event.ai_response_end c)) :=
  ⟨rfl, rfl,
    c6_tool_not_found wTools wLoads wMissScript "hi" [] 0 0
      { id := "", name := "nope", rawArgs := PyVal.str "x" } rfl rfl⟩

/-- Claim C7: a raw arguments string that fails json parsing is replaced by
the sentinel dict carrying the raw text under $raw instead of raising, an
already-structured mapping is used as-is, and a parse failure never aborts
the round: the round still yields one tool-role transcript message per
requested call. -/
theorem c7_argument_parse_recovery (tools : List String)
    (jsonLoads : String → Option PyVal) (s : String) (m : List (String × PyVal))
    (rs : RoundScript)
    (hs : s ≠ "") (hp : jsonLoads s = none) :
    parseToolArgs jsonLoads (PyVal.str s) = PyVal.dict [("$raw", PyVal.str s)]
    ∧ parseToolArgs jsonLoads (PyVal.dict m) = PyVal.dict m
    ∧ (roundToolMsgs tools jsonLoads rs).length = (rs.decide.toolCalls).length := by
  refine ⟨?_, rfl, execCalls_snd_length _ _ _ _ _ _⟩
  simp [parseToolArgs, hs, hp]

theorem c7_argument_parse_recovery_witness :
    "oops" ≠ ""
    ∧ wLoads "oops" = none
    ∧ (parseToolArgs wLoads (PyVal.str "oops")
          = PyVal.dict [("$raw", PyVal.str "oops")]
      ∧ parseToolArgs wLoads (PyVal.dict [("a", PyVal.str "b")])
          = PyVal.dict [("a", PyVal.str "b")]
      ∧ (roundToolMsgs wTools wLoads (wScript 0)).length
          = ((wScript 0).decide.toolCalls).length) :=
  ⟨by decide, rfl,
    c7_argument_parse_recovery wTools wLoads "oops" [("a", PyVal.str "b")] (wScript 0)
      (by decide) rfl⟩

/-- Claim C8: every chat_stream run driven by the modelled externals ends
with an ai_response_end event, whether the turn finished with a streamed
answer, degraded after a backend failure, or hit the round-limit fallback;
this entails the claimed disjunction (completed answer, terminal error, or
fallback answer) since ai_response_end closes both the completed answer
and the fallback answer. -/
theorem c8_always_terminating_event (tools : List String)
    (jsonLoads : String → Option PyVal) (script : Nat → RoundScript)
    (ui : String) (hist : List ConversationTurn) :
    ∃ c, (chat_stream tools jsonLoads script ui hist).getLast?
      = some (Event.ai_response_end c) :=
  chatStreamEndsWithEnd tools jsonLoads script ui hist

/-- Claim C9: given that the legacy default profile exists in llm_profiles
(the loader always inserts it), when more than one non-default profile
exists the default profile is suppressed from the listing returned by
get_models_info while resolve_profile_id still resolves the id default to
itself (it remains usable by id); and when no non-default profile exists
the default profile is listed. -/
theorem c9_default_profile_visibility (profiles : List ProfileCfg) (dpid : String)
    (hdef : (profiles.map ProfileCfg.id).contains "default" = true) :
    (((profiles.map ProfileCfg.id).filter (fun i => i ≠ "default")).length > 1 →
      ("default" ∉ (get_models_info profiles dpid).models.map ModelEntry.id
        ∧ resolve_profile_id (profiles.map ProfileCfg.id) dpid (some "default")
            = "default"))
    ∧ ((profiles.map ProfileCfg.id).filter (fun i => i ≠ "default") = [] →
      "default" ∈ (get_models_info profiles dpid).models.map ModelEntry.id) := by
  constructor
  · intro hgt
    have hne : (profiles.map ProfileCfg.id).filter (fun i => i ≠ "default") ≠ [] := by
      intro h0
      rw [h0] at hgt
      simp at hgt
    constructor
    · intro hmem
      simp only [get_models_info] at hmem
      rw [if_neg hne] at hmem
      have hsub := dedupModels_ids_subset profiles (effectiveDefault profiles dpid)
        ((profiles.map ProfileCfg.id).filter (fun i => i ≠ "default")) [] "default" hmem
      simp at hsub
    · simp only [resolve_profile_id]
      rw [if_neg (show ¬("default" : String) = "" by decide)]
      rw [if_pos hdef]
  · intro hnil
    simp only [get_models_info]
    rw [if_pos hnil, if_pos hdef]
    simp [dedupModels]

theorem c9_default_profile_visibility_witness :
    (wProfiles.map ProfileCfg.id).contains "default" = true
    ∧ ((wProfiles.map ProfileCfg.id).filter (fun i => i ≠ "default")).length > 1
    ∧ ((((wProfiles.map ProfileCfg.id).filter (fun i => i ≠ "default")).length > 1 →
        ("default" ∉ (get_models_info wProfiles "a").models.map ModelEntry.id
          ∧ resolve_profile_id (wProfiles.map ProfileCfg.id) "a" (some "default")
              = "default"))
      ∧ ((wProfiles.map ProfileCfg.id).filter (fun i => i ≠ "default") = [] →
        "default" ∈ (get_models_info wProfiles "a").models.map ModelEntry.id)) :=
  ⟨by decide, by decide, c9_default_profile_visibility wProfiles "a" (by decide)⟩

/-- Claim C10: the empty raw-arguments string parses to the empty mapping
without touching the json parser; the $raw sentinel is produced exactly
for a non-empty string on which the parser raises and for values that are
neither strings nor mappings (wrapped via their str() form); a non-empty
string the parser accepts yields the parsed value itself, and a mapping is
passed through unchanged. -/
theorem c10_empty_and_sentinel_args (jsonLoads : String → Option PyVal) :
    parseToolArgs jsonLoads (PyVal.str "") = PyVal.dict []
    ∧ (∀ s, s ≠ "" → jsonLoads s = none →
        parseToolArgs jsonLoads (PyVal.str s) = PyVal.dict [("$raw", PyVal.str s)])
    ∧ (∀ s v, s ≠ "" → jsonLoads s = some v →
        parseToolArgs jsonLoads (PyVal.str s) = v)
    ∧ (∀ m, parseToolArgs jsonLoads (PyVal.dict m) = PyVal.dict m)
    ∧ (∀ r, parseToolArgs jsonLoads (PyVal.other r) = PyVal.dict [("$raw", PyVal.str r)]) := by
  refine ⟨rfl, ?_, ?_, fun m => rfl, fun r => rfl⟩
  · intro s hs hp
    simp [parseToolArgs, hs, hp]
  · intro s v hs hp
    simp [parseToolArgs, hs, hp]

theorem c10_empty_and_sentinel_args_witness :
    parseToolArgs wLoads (PyVal.str "") = PyVal.dict []
    ∧ ("abc" ≠ "" ∧ wLoads "abc" = none
        ∧ parseToolArgs wLoads (PyVal.str "abc") = PyVal.dict [("$raw", PyVal.str "abc")])
    ∧ parseToolArgs wLoads (PyVal.dict [("k", PyVal.str "v")])
        = PyVal.dict [("k", PyVal.str "v")]
    ∧ parseToolArgs wLoads (PyVal.other "42") = PyVal.dict [("$raw", PyVal.str "42")] :=
  ⟨(c10_empty_and_sentinel_args wLoads).1,
    ⟨by decide, rfl,
      (c10_empty_and_sentinel_args wLoads).2.1 "abc" (by decide) rfl⟩,
    (c10_empty_and_sentinel_args wLoads).2.2.2.1 [("k", PyVal.str "v")],
    (c10_empty_and_sentinel_args wLoads).2.2.2.2 "42"⟩
